import Mathlib

set_option maxRecDepth 100000

/-!
Verification of the CSV validation-and-metrics core of the
"MLH Counting to 1 Billion Analysis" tool.

The Python source (src/csv_validator.py, src/metrics.py,
src/visualizations.py, src/app.py) is shallowly embedded below.
Dataframe cells are abstracted by what the (out-of-scope) pandas parsers
would yield for them: each raw cell records its numeric coercion result
(`asNum`, `none` meaning NaN / not coercible), whether strict numeric
parsing raises (`numRaises`), and its datetime parse result (`asDate`).
Numeric values are modelled as rationals; dates as year/month/day records
ordered chronologically (lexicographically).
-/

namespace Counting

/-- A calendar date as produced by `pd.to_datetime`. -/
structure Date where
  year : Nat
  month : Nat
  day : Nat
deriving DecidableEq

/-- Chronological (lexicographic) comparison of dates, as pandas datetime
comparison behaves on valid dates. -/
def Date.ble (a b : Date) : Bool :=
  Nat.blt a.year b.year ||
    (Nat.beq a.year b.year &&
      (Nat.blt a.month b.month ||
        (Nat.beq a.month b.month && Nat.ble a.day b.day)))

/-- Zero-pad a numeral to two digits (`strftime` `%m` / `%d`). -/
def pad2 (n : Nat) : String :=
  if n < 10 then "0" ++ toString n else toString n

/-- Zero-pad a numeral to four digits (`strftime` `%Y`). -/
def pad4 (n : Nat) : String :=
  if n < 10 then "000" ++ toString n
  else if n < 100 then "00" ++ toString n
  else if n < 1000 then "0" ++ toString n
  else toString n

/-- Formatting as `strftime("%Y-%m-%d")`. -/
def Date.format (d : Date) : String :=
  pad4 d.year ++ "-" ++ pad2 d.month ++ "-" ++ pad2 d.day

/-- Joining as `", ".join(...)`. -/
def joinComma (l : List String) : String :=
  String.intercalate ", " l

/-- A raw dataframe cell, abstracted by the results of the pandas parsers
on it: `asNum` is the value `pd.to_numeric(..., errors="coerce")` yields
(`none` = NaN), `numRaises` tells whether `pd.to_numeric(..., errors="raise")`
raises on it, and `asDate` is the value `pd.to_datetime` yields
(`none` = parse failure). -/
structure RawCell where
  asNum : Option ℚ
  numRaises : Bool
  asDate : Option Date
deriving DecidableEq

/-- A dataframe column: its storage dtype flag
(`pd.api.types.is_numeric_dtype`) and its cells. -/
structure Column where
  numericDtype : Bool
  cells : List RawCell
deriving DecidableEq

/-- A dataframe: ordered header/column pairs (pandas deduplicates headers
on read, so a header occurs once). -/
structure DataFrame where
  cols : List (String × Column)
deriving DecidableEq

/-- Model of `df.columns`. -/
def DataFrame.headers (df : DataFrame) : List String :=
  df.cols.map Prod.fst

/-- Column access `df[h]`. -/
def DataFrame.getCol (df : DataFrame) (h : String) : Option Column :=
  (df.cols.find? (fun p => p.1 == h)).map Prod.snd

/-- First-match association lookup, `column_mapping[k]`. -/
def lookupMap (m : List (String × String)) (k : String) : Option String :=
  (m.find? (fun p => p.1 == k)).map Prod.snd

/-- Model of `df[column_mapping[name]]`.  The source raises `KeyError` when the
mapping or column is absent; callers only invoke it on complete mappings,
so the default column is never reached on pipeline inputs. -/
def colOf (df : DataFrame) (mapping : List (String × String))
    (name : String) : Column :=
  match lookupMap mapping name with
  | some actual => (df.getCol actual).getD ⟨false, []⟩
  | none => ⟨false, []⟩

/-- Model of `pd.to_datetime` over a column: succeeds iff every cell parses. -/
def parseDates : List RawCell → Option (List Date)
  | [] => some []
  | c :: rest =>
    match c.asDate, parseDates rest with
    | some d, some ds => some (d :: ds)
    | _, _ => none

/-- Model of `pd.to_numeric(df[...], errors="coerce")` over a column. -/
def coercedNums (c : Column) : List (Option ℚ) :=
  c.cells.map RawCell.asNum

/-- Whether `pd.to_numeric(df[...], errors="raise")` raises on the column. -/
def Column.raisesNumeric (c : Column) : Bool :=
  c.cells.any RawCell.numRaises

/-- Model of `df.head()`: the first five rows. -/
def DataFrame.head (df : DataFrame) : DataFrame :=
  ⟨df.cols.map (fun p => (p.1, ⟨p.2.numericDtype, p.2.cells.take 5⟩))⟩

/-- Model of `str.strip()`: drop leading and trailing whitespace characters. -/
def trimChars (l : List Char) : List Char :=
  ((l.dropWhile Char.isWhitespace).reverse.dropWhile Char.isWhitespace).reverse

/-- Model of `str.lower()`. -/
def lowerStr (s : String) : String :=
  ⟨s.data.map Char.toLower⟩

/-- The normalization `header.strip().lower()` used by the column lookup. -/
def norm (h : String) : String :=
  ⟨(trimChars h.data).map Char.toLower⟩

/-- The lookup dictionary `{col.strip().lower(): col for col in df.columns}`
as an insertion-ordered association list (a later entry with the same key
overwrites an earlier one, so lookups must take the last match). -/
def buildLookup (headers : List String) : List (String × String) :=
  headers.map (fun h => (norm h, h))

/-- Python dict lookup on `buildLookup`: the value of the LAST entry whose
key matches (later comprehension entries overwrite earlier ones). -/
def dictFind (l : List (String × String)) (k : String) : Option String :=
  (l.reverse.find? (fun p => p.1 == k)).map Prod.snd

/-- The per-required-name loop of `validate_columns`. -/
def validate_columns_aux (lookup : List (String × String)) :
    List String → List (String × String) × List String
  | [] => ([], [])
  | req :: rest =>
    let r := validate_columns_aux lookup rest
    match dictFind lookup (lowerStr req) with
    | some actual => ((req, actual) :: r.1, r.2)
    | none => (r.1, req :: r.2)

/-- The function `validate_columns` (src/csv_validator.py:5-25): case-insensitive,
whitespace-trimmed resolution of required logical names to actual headers.
Returns `(column_mapping, missing_columns)`. -/
def validate_columns (headers : List String) (required_columns : List String) :
    List (String × String) × List String :=
  validate_columns_aux (buildLookup headers) required_columns

/-- The function `validate_data_types` (src/csv_validator.py:28-59): the date column must
parse via `pd.to_datetime`; each of `from`, `to`, `count` must either already
have numeric dtype or survive `pd.to_numeric(..., errors="raise")`. -/
def validate_data_types (df : DataFrame)
    (mapping : List (String × String)) : List String :=
  let date_col := (lookupMap mapping "date").getD ""
  let dateErrors :=
    match parseDates (colOf df mapping "date").cells with
    | some _ => []
    | none => ["Date column \x27" ++ date_col ++ "\x27 contains invalid dates"]
  let numErrors := (["from", "to", "count"].map (fun expected_name =>
    let actual_col := (lookupMap mapping expected_name).getD ""
    let c := colOf df mapping expected_name
    if !c.numericDtype && c.raisesNumeric then
      ["Column \x27" ++ actual_col ++ "\x27 (expected \x27" ++ expected_name ++
        "\x27) must contain numeric values"]
    else [])).flatten
  dateErrors ++ numErrors

/-- Model of `Series.duplicated()` (keep="first") restricted to the flagged values:
the subsequence of entries equal to some earlier entry, in row order. -/
def repeatsAux (seen : List Date) : List Date → List Date
  | [] => []
  | d :: rest =>
    if d ∈ seen then d :: repeatsAux seen rest
    else repeatsAux (d :: seen) rest

/-- Model of `Series.unique()`: distinct values in order of first appearance. -/
def uniqueFirstAux (seen : List Date) : List Date → List Date
  | [] => []
  | d :: rest =>
    if d ∈ seen then uniqueFirstAux seen rest
    else d :: uniqueFirstAux (d :: seen) rest

def uniqueFirst (l : List Date) : List Date :=
  uniqueFirstAux [] l

/-- The function `validate_date_duplicates` (src/csv_validator.py:62-86), taken from the
parsed date sequence (the source recomputes `pd.to_datetime(df[date_col])`,
whose success the Schema Validator established). -/
def validate_date_duplicates (dates : List Date) : List String :=
  let duplicates := repeatsAux [] dates
  if duplicates.isEmpty then []
  else
    ["Found duplicate dates: " ++
      joinComma ((uniqueFirst duplicates).map Date.format)]

/-- Model of `Series.is_monotonic_increasing`: NON-strict comparison of adjacent
values (equal neighbours count as monotonic). -/
def monotonicIncreasing : List Date → Bool
  | [] => true
  | [_] => true
  | a :: b :: rest => a.ble b && monotonicIncreasing (b :: rest)

/-- The function `validate_date_ordering` (src/csv_validator.py:89-106), on the parsed
date sequence. -/
def validate_date_ordering (dates : List Date) : List String :=
  if monotonicIncreasing dates then []
  else ["Dates are not in chronological order (ascending)"]

/-- The NaN guard of `validate_numeric_rules`: whether any coerced value of
`from`, `to` or `count` is NaN. -/
def hasNaN (fromVals toVals countVals : List (Option ℚ)) : Bool :=
  fromVals.any Option.isNone || toVals.any Option.isNone ||
    countVals.any Option.isNone

/-- Rows as (date, from, to, count) tuples, aligned positionally. -/
def zipRows (dates : List Date) (fv tv cv : List ℚ) :
    List (Date × ℚ × ℚ × ℚ) :=
  dates.zip (fv.zip (tv.zip cv))

/-- Rule 1 of `validate_numeric_rules`: rows where `to < from`, reported by
their dates. -/
def rangeErrors (dates : List Date) (fv tv cv : List ℚ) : List String :=
  let bad := ((zipRows dates fv tv cv).filter
    (fun r => decide (r.2.2.1 < r.2.1))).map Prod.fst
  if bad.isEmpty then []
  else
    ["Found rows where \x27to\x27 < \x27from\x27: " ++
      joinComma (bad.map Date.format)]

/-- Rule 2 of `validate_numeric_rules`: rows where `count ≠ to - from + 1`,
reported by their dates. -/
def countErrors (dates : List Date) (fv tv cv : List ℚ) : List String :=
  let bad := ((zipRows dates fv tv cv).filter
    (fun r => decide (r.2.2.2 ≠ r.2.2.1 - r.2.1 + 1))).map Prod.fst
  if bad.isEmpty then []
  else
    ["Found rows where \x27count\x27 ≠ \x27to - from + 1\x27: " ++
      joinComma (bad.map Date.format)]

/-- The function `validate_numeric_rules` (src/csv_validator.py:109-165), on the parsed
dates and the coerced numeric columns (`errors="coerce"`, `none` = NaN).
If any value is NaN, one generic message is emitted and the function
returns immediately; otherwise rules 1 and 2 both run and accumulate. -/
def validate_numeric_rules (dates : List Date)
    (fromVals toVals countVals : List (Option ℚ)) : List String :=
  if hasNaN fromVals toVals countVals then
    ["Found invalid numeric values (NaN) in from, to, or count columns"]
  else
    let fv := fromVals.map (fun v => v.getD 0)
    let tv := toVals.map (fun v => v.getD 0)
    let cv := countVals.map (fun v => v.getD 0)
    rangeErrors dates fv tv cv ++ countErrors dates fv tv cv

/-- The record returned by `calculate_metrics` (src/metrics.py:51-58). -/
structure Metrics where
  current_standing : ℚ
  completion_percentage : ℚ
  daily_throughput : ℚ
  peak_performance : ℚ
  peak_performance_date : Date
  estimated_completion_years : Option ℚ
deriving DecidableEq

/-- Model of `Series.max()`: `none` on an empty series (pandas yields NaN there and
`idxmax` raises, so `calculate_metrics` has no value on empty input). -/
def listMax : List ℚ → Option ℚ
  | [] => none
  | x :: rest => some (rest.foldl max x)

/-- Model of `Series.idxmax()`: index of the FIRST occurrence of the maximum. -/
def firstIdxOfMax (l : List ℚ) : Option Nat :=
  (listMax l).bind (fun m => l.findIdx? (fun x => decide (x = m)))

/-- The function `calculate_metrics` (src/metrics.py:6-58), on the parsed dates and the
numeric `to` and `count` columns of a validated dataframe.  `none` models
the exceptions pandas raises on empty/misaligned input (`idxmax`,
out-of-range `loc`), which validated data never triggers. -/
def calculate_metrics (dates : List Date) (toVals countVals : List ℚ) :
    Option Metrics :=
  match listMax toVals, listMax countVals with
  | some current_standing, some peak_performance =>
    let completion_percentage := current_standing / 1000000000 * 100
    let daily_throughput := countVals.sum / (countVals.length : ℚ)
    match firstIdxOfMax countVals with
    | some idx =>
      match dates.get? idx with
      | some peak_performance_date =>
        let remaining := 1000000000 - current_standing
        let estimated_completion_years :=
          if daily_throughput > 0 then
            some (remaining / daily_throughput / (36525 / 100))
          else none
        some ⟨current_standing, completion_percentage, daily_throughput,
          peak_performance, peak_performance_date,
          estimated_completion_years⟩
      | none => none
    | none => none
  | _, _ => none

/-- A declarative chart description (src/visualizations.py): mark type,
encoded fields, optional color channel, and the (date, value) rows sorted
ascending by date. -/
structure ChartSpec where
  mark : String
  xField : String
  yField : String
  colorField : Option String
  rows : List (Date × ℚ)
deriving DecidableEq

/-- Insert into a date-sorted row list (used to model `sort_values`;
validated data is already strictly ascending, so any correct sort agrees). -/
def insertRow (x : Date × ℚ) : List (Date × ℚ) → List (Date × ℚ)
  | [] => [x]
  | y :: rest =>
    if x.1.ble y.1 && !(y.1.ble x.1) then x :: y :: rest
    else y :: insertRow x rest

/-- Model of `chart_df.sort_values("date_parsed")` on (date, value) rows. -/
def sortRowsByDate (rows : List (Date × ℚ)) : List (Date × ℚ) :=
  rows.foldl (fun acc x => insertRow x acc) []

/-- The function `create_progress_chart` (src/visualizations.py:6-60): line chart with
point markers of `to` against parsed date. -/
def create_progress_chart (dates : List Date) (toVals : List ℚ) : ChartSpec :=
  ⟨"line+point", "date_parsed", "count_value", none,
    sortRowsByDate (dates.zip toVals)⟩

/-- The function `create_daily_activity_chart` (src/visualizations.py:76-131): bar chart
of `count` against parsed date, bars colored by `count`. -/
def create_daily_activity_chart (dates : List Date) (countVals : List ℚ) :
    ChartSpec :=
  ⟨"bar", "date_parsed", "daily_count", some "daily_count",
    sortRowsByDate (dates.zip countVals)⟩

/-- What `process_csv_file` does on screen before falling off its end:
either it stops after surfacing a stage's error messages (`st.error` +
`st.stop`), or it reaches `display_data` and shows the head-preview of the
table, or an exception was caught and one message shown. -/
inductive ProcessOutcome where
  | stopped (errors : List String)
  | displayed (preview : DataFrame)
  | excepted (msg : String)
deriving DecidableEq

/-- The function `process_csv_file` (src/csv_validator.py:190-252), from the parsed
dataframe on (CSV reading/caching is the out-of-scope UI layer).  The
second component is the Python return value: the source has NO `return`
statement, so every path returns `None`. -/
def process_csv_file (df : DataFrame) :
    ProcessOutcome × Option (DataFrame × List (String × String)) :=
  let required_columns := ["date", "from", "to", "count"]
  let r := validate_columns df.headers required_columns
  if !r.2.isEmpty then
    (.stopped ["Missing required columns: " ++ joinComma r.2,
      "Found columns: " ++ joinComma df.headers], none)
  else
    let validation_errors := validate_data_types df r.1
    if !validation_errors.isEmpty then (.stopped validation_errors, none)
    else
      match parseDates (colOf df r.1 "date").cells with
      | none =>
        -- unreachable: `validate_data_types` passing means the date column
        -- parses; a failure here would surface as the catch-all handler's
        -- "Unexpected error" message.
        (.excepted "Unexpected error", none)
      | some dates =>
        let duplicate_errors := validate_date_duplicates dates
        if !duplicate_errors.isEmpty then (.stopped duplicate_errors, none)
        else
          let ordering_errors := validate_date_ordering dates
          if !ordering_errors.isEmpty then (.stopped ordering_errors, none)
          else
            let numeric_rules_errors := validate_numeric_rules dates
              (coercedNums (colOf df r.1 "from"))
              (coercedNums (colOf df r.1 "to"))
              (coercedNums (colOf df r.1 "count"))
            if !numeric_rules_errors.isEmpty then
              (.stopped numeric_rules_errors, none)
            else (.displayed df.head, none)

/-- Everything the app shell renders for one upload (src/app.py:13-32). -/
structure AppRun where
  processOutcome : ProcessOutcome
  metrics : Option Metrics
  progressChart : Option ChartSpec
  dailyChart : Option ChartSpec
  fullPreview : Option DataFrame
deriving DecidableEq

/-- The `app.py` main flow for one uploaded dataframe: run the pipeline,
and if (and only if) it returned a result, show the preview, metrics and
both charts.  Since `process_csv_file` always returns `None`, the `some`
branch is dead code; it is modelled faithfully anyway. -/
def app_main (df : DataFrame) : AppRun :=
  match process_csv_file df with
  | (outcome, some res) =>
    let mapping := res.2
    let dates := (parseDates (colOf res.1 mapping "date").cells).getD []
    let toVals := (coercedNums (colOf res.1 mapping "to")).map
      (fun v => v.getD 0)
    let countVals := (coercedNums (colOf res.1 mapping "count")).map
      (fun v => v.getD 0)
    ⟨outcome, calculate_metrics dates toVals countVals,
      some (create_progress_chart dates toVals),
      some (create_daily_activity_chart dates countVals),
      some res.1⟩
  | (outcome, none) => ⟨outcome, none, none, none, none⟩

/-! Concrete fixtures used by witnesses and counterexamples. -/

/-- The date 2024-01-01. -/
def dJan1 : Date := ⟨2024, 1, 1⟩
/-- The date 2024-01-02. -/
def dJan2 : Date := ⟨2024, 1, 2⟩
/-- The date 2024-01-03. -/
def dJan3 : Date := ⟨2024, 1, 3⟩

/-- A cell of a numeric-dtype column holding the value `q`. -/
def numCell (q : ℚ) : RawCell := ⟨some q, false, none⟩

/-- A NaN cell of a numeric-dtype column. -/
def nanCell : RawCell := ⟨none, false, none⟩

/-- A date-string cell: parses as a date, not as a number. -/
def dateCell (d : Date) : RawCell := ⟨none, true, some d⟩

/-- The spec's Scenario 1 dataframe:
rows (2024-01-01,1,100,100), (2024-01-02,101,250,150). -/
def scenario1 : DataFrame :=
  ⟨[("date", ⟨false, [dateCell dJan1, dateCell dJan2]⟩),
    ("from", ⟨true, [numCell 1, numCell 101]⟩),
    ("to", ⟨true, [numCell 100, numCell 250]⟩),
    ("count", ⟨true, [numCell 100, numCell 150]⟩)]⟩

/-! Helper lemmas. -/

/-- The comparison `Date.ble` is reflexive. -/
theorem Date.ble_refl (d : Date) : d.ble d = true := by
  simp [Date.ble, Nat.ble_eq]

/-- The check `monotonicIncreasing` agrees with Mathlib's adjacent-pair chain. -/
theorem monotonic_iff : ∀ l : List Date,
    monotonicIncreasing l = true ↔
      List.Chain' (fun a b => a.ble b = true) l
  | [] => by simp [monotonicIncreasing]
  | [a] => by simp [monotonicIncreasing]
  | a :: b :: rest => by
    rw [monotonicIncreasing, Bool.and_eq_true, List.chain'_cons,
      monotonic_iff (b :: rest)]

/-- The fold underlying `listMax` returns an element bounding the rest. -/
theorem foldlMax_spec : ∀ (rest : List ℚ) (x : ℚ),
    rest.foldl max x ∈ x :: rest ∧ x ≤ rest.foldl max x ∧
      ∀ y ∈ rest, y ≤ rest.foldl max x := by
  intro rest
  induction rest with
  | nil => intro x; simp
  | cons y t ih =>
    intro x
    obtain ⟨hmem, hle, hall⟩ := ih (max x y)
    rw [List.foldl_cons]
    refine ⟨?_, ?_, ?_⟩
    · rcases List.mem_cons.mp hmem with h | h
      · rcases max_choice x y with hc | hc
        · exact List.mem_cons.mpr (Or.inl (h.trans hc))
        · exact List.mem_cons.mpr
            (Or.inr (List.mem_cons.mpr (Or.inl (h.trans hc))))
      · exact List.mem_cons.mpr (Or.inr (List.mem_cons.mpr (Or.inr h)))
    · exact le_trans (le_max_left x y) hle
    · intro z hz
      rcases List.mem_cons.mp hz with h | h
      · rw [h]; exact le_trans (le_max_right x y) hle
      · exact hall z h

/-- The function `listMax` computes a maximum of the list. -/
theorem listMax_spec (l : List ℚ) (m : ℚ) (h : listMax l = some m) :
    m ∈ l ∧ ∀ x ∈ l, x ≤ m := by
  cases l with
  | nil => simp [listMax] at h
  | cons x rest =>
    simp only [listMax, Option.some.injEq] at h
    subst h
    obtain ⟨hmem, hx, hall⟩ := foldlMax_spec rest x
    refine ⟨hmem, ?_⟩
    intro z hz
    rcases List.mem_cons.mp hz with hzx | hzr
    · rw [hzx]; exact hx
    · exact hall z hzr

/-- Specification of `List.findIdx?`: the found index holds a satisfying
element and every earlier index does not. -/
theorem findIdx?_spec {α : Type} (p : α → Bool) :
    ∀ (l : List α) (i : Nat), l.findIdx? p = some i →
      (∃ x, l.get? i = some x ∧ p x = true) ∧
      ∀ j, j < i → ∀ x, l.get? j = some x → p x = false := by
  intro l
  induction l with
  | nil => intro i h; simp [List.findIdx?] at h
  | cons a t ih =>
    intro i h
    rw [List.findIdx?_cons] at h
    by_cases hpa : p a = true
    · rw [if_pos hpa] at h
      cases h
      exact ⟨⟨a, rfl, hpa⟩, fun j hj => absurd hj (Nat.not_lt_zero j)⟩
    · rw [if_neg hpa, List.findIdx?_succ] at h
      obtain ⟨i', hi', rfl⟩ := Option.map_eq_some'.mp h
      obtain ⟨⟨x, hx, hpx⟩, hbefore⟩ := ih i' hi'
      refine ⟨⟨x, hx, hpx⟩, ?_⟩
      intro j hj y hy
      cases j with
      | zero =>
        cases hy
        exact Bool.eq_false_iff.mpr hpa
      | succ j' => exact hbefore j' (Nat.lt_of_succ_lt_succ hj) y hy

/-! Claim C3: the date-ordering check. -/

/-- C3, counterexample: the claim says a repeated adjacent date fails the
ordering check (`validate_date_ordering`).  It does not: pandas
`is_monotonic_increasing` is non-strict, so `[2024-01-01, 2024-01-01]`
passes the ordering check and is reported only by the duplicates check. -/
theorem c3_counterexample :
    validate_date_ordering [dJan1, dJan1] = [] ∧
    validate_date_duplicates [dJan1, dJan1] =
      ["Found duplicate dates: 2024-01-01"] := by
  with_unfolding_all decide

/-- C3, amended: the ordering check accepts exactly the NON-strictly
increasing date sequences (adjacent pairs related by `Date.ble`), and
repeating a date in place never changes the ordering check's verdict;
a repeat is reported only by the duplicate-dates check. -/
theorem c3_ordering_check_nonstrict :
    (∀ dates : List Date, validate_date_ordering dates = [] ↔
      List.Chain' (fun a b => a.ble b = true) dates) ∧
    (∀ (d : Date) (l : List Date),
      validate_date_ordering (d :: d :: l) = validate_date_ordering (d :: l)) := by
  constructor
  · intro dates
    rw [validate_date_ordering]
    by_cases h : monotonicIncreasing dates = true
    · simp [h, (monotonic_iff dates).mp h]
    · simp only [h, Bool.false_eq_true, if_false]
      simp only [List.cons_ne_nil, false_iff]
      rw [← monotonic_iff dates]
      exact h
  · intro d l
    rw [validate_date_ordering, validate_date_ordering]
    have : monotonicIncreasing (d :: d :: l) = monotonicIncreasing (d :: l) := by
      rw [monotonicIncreasing, Date.ble_refl, Bool.true_and]
    rw [this]

/-- Witness for C3's amended theorem at a concrete repeat. -/
theorem c3_ordering_check_nonstrict_witness :
    validate_date_ordering [dJan1, dJan1] = validate_date_ordering [dJan1] :=
  c3_ordering_check_nonstrict.2 dJan1 []

/-! Claim C5: the Metrics Calculator's formulas. -/

/-- C5: for every dataset accepted by `calculate_metrics`,
`current_standing` is the maximum of the `to` column,
`peak_performance` the maximum of the `count` column,
`daily_throughput` the arithmetic mean of the `count` column,
`completion_percentage` the standing as a share of 1,000,000,000 times 100,
and `peak_performance_date` the date of the FIRST row attaining the
maximum count; on the spec's Scenario 1 rows the values are 250,
1/40000 (= 0.000025), 125, 150 and 2024-01-02, and on a tied input the
earlier row's date wins. -/
theorem c5_metrics_formulas :
    (∀ (dates : List Date) (tos counts : List ℚ) (m : Metrics),
      calculate_metrics dates tos counts = some m →
        (m.current_standing ∈ tos ∧ ∀ x ∈ tos, x ≤ m.current_standing) ∧
        (m.peak_performance ∈ counts ∧ ∀ x ∈ counts, x ≤ m.peak_performance) ∧
        m.daily_throughput * counts.length = counts.sum ∧
        m.completion_percentage = m.current_standing / 1000000000 * 100 ∧
        (∃ i : Nat, counts.get? i = some m.peak_performance ∧
          dates.get? i = some m.peak_performance_date ∧
          ∀ j, j < i → counts.get? j ≠ some m.peak_performance)) ∧
    ((calculate_metrics [dJan1, dJan2] [100, 250] [100, 150]).map
        Metrics.current_standing = some 250 ∧
      (calculate_metrics [dJan1, dJan2] [100, 250] [100, 150]).map
        Metrics.completion_percentage = some (1 / 40000) ∧
      (calculate_metrics [dJan1, dJan2] [100, 250] [100, 150]).map
        Metrics.daily_throughput = some 125 ∧
      (calculate_metrics [dJan1, dJan2] [100, 250] [100, 150]).map
        Metrics.peak_performance = some 150 ∧
      (calculate_metrics [dJan1, dJan2] [100, 250] [100, 150]).map
        Metrics.peak_performance_date = some dJan2) ∧
    (calculate_metrics [dJan1, dJan2, dJan3] [100, 250, 300]
        [100, 150, 150]).map Metrics.peak_performance_date = some dJan2 := by
  refine ⟨?_,
    by norm_num [calculate_metrics, listMax, firstIdxOfMax, max_def],
    by norm_num [calculate_metrics, listMax, firstIdxOfMax, max_def]⟩
  intro dates tos counts m hm
  rw [calculate_metrics] at hm
  cases h1 : listMax tos with
  | none => rw [h1] at hm; exact absurd hm (by simp)
  | some cs =>
  cases h2 : listMax counts with
  | none => rw [h1, h2] at hm; exact absurd hm (by simp)
  | some peak =>
  rw [h1, h2] at hm
  dsimp only at hm
  cases h3 : firstIdxOfMax counts with
  | none => rw [h3] at hm; exact absurd hm (by simp)
  | some idx =>
  rw [h3] at hm
  dsimp only at hm
  cases h4 : dates.get? idx with
  | none => rw [h4] at hm; exact absurd hm (by simp)
  | some pdate =>
  rw [h4] at hm
  dsimp only at hm
  have hm' := Option.some.inj hm
  subst hm'
  obtain ⟨hcs_mem, hcs_max⟩ := listMax_spec tos cs h1
  obtain ⟨hpk_mem, hpk_max⟩ := listMax_spec counts peak h2
  have hfind : counts.findIdx? (fun x => decide (x = peak)) = some idx := by
    rw [firstIdxOfMax, h2] at h3
    exact h3
  obtain ⟨⟨x, hx, hpx⟩, hbefore⟩ :=
    findIdx?_spec (fun x => decide (x = peak)) counts idx hfind
  have hxpeak : x = peak := of_decide_eq_true hpx
  subst hxpeak
  refine ⟨⟨hcs_mem, hcs_max⟩, ⟨hpk_mem, hpk_max⟩, ?_, rfl, ?_⟩
  · show counts.sum / (counts.length : ℚ) * counts.length = counts.sum
    have hne : counts ≠ [] := List.ne_nil_of_mem hpk_mem
    have hlen : (counts.length : ℚ) ≠ 0 :=
      Nat.cast_ne_zero.mpr (Nat.pos_iff_ne_zero.mp (List.length_pos.mpr hne))
    field_simp
  · refine ⟨idx, hx, h4, ?_⟩
    intro j hj hget
    have := hbefore j hj x hget
    simp at this

/-- The Metrics record `calculate_metrics` produces on Scenario 1. -/
def c5m : Metrics :=
  ⟨250, 1 / 40000, 125, 150, dJan2, some (10666664 / 487)⟩

/-- Witness for C5's general part, applied at Scenario 1. -/
theorem c5_metrics_formulas_witness :
    calculate_metrics [dJan1, dJan2] [100, 250] [100, 150] = some c5m ∧
    c5m.current_standing ∈ ([100, 250] : List ℚ) ∧
    ∀ x ∈ ([100, 250] : List ℚ), x ≤ c5m.current_standing := by
  have hm : calculate_metrics [dJan1, dJan2] [100, 250] [100, 150] =
      some c5m := by
    norm_num [calculate_metrics, listMax, firstIdxOfMax, max_def, c5m]
  have h :=
    (c5_metrics_formulas.1 [dJan1, dJan2] [100, 250] [100, 150] c5m hm).1
  exact ⟨hm, h.1, h.2⟩

/-! Claim C6: the NaN guard of the Consistency Validator. -/

/-- C6: `hasNaN` holds exactly when some coerced `from`/`to`/`count` value
is NaN; in that case `validate_numeric_rules` emits exactly the one generic
message and returns immediately (no rule-1/rule-2 message can appear);
otherwise both the range check and the count check run and their messages
accumulate. -/
theorem c6_nan_guard (dates : List Date)
    (fromVals toVals countVals : List (Option ℚ)) :
    (hasNaN fromVals toVals countVals = true ↔
      (∃ v ∈ fromVals, v = none) ∨ (∃ v ∈ toVals, v = none) ∨
        (∃ v ∈ countVals, v = none)) ∧
    (hasNaN fromVals toVals countVals = true →
      validate_numeric_rules dates fromVals toVals countVals =
        ["Found invalid numeric values (NaN) in from, to, or count columns"]) ∧
    (hasNaN fromVals toVals countVals = false →
      validate_numeric_rules dates fromVals toVals countVals =
        rangeErrors dates (fromVals.map (fun v => v.getD 0))
            (toVals.map (fun v => v.getD 0))
            (countVals.map (fun v => v.getD 0)) ++
          countErrors dates (fromVals.map (fun v => v.getD 0))
            (toVals.map (fun v => v.getD 0))
            (countVals.map (fun v => v.getD 0))) := by
  refine ⟨?_, ?_, ?_⟩
  · simp [hasNaN, List.any_eq_true, Option.isNone_iff_eq_none, or_assoc]
  · intro h
    rw [validate_numeric_rules]
    simp [h]
  · intro h
    rw [validate_numeric_rules]
    simp [h]

/-- Witness for C6 at an input whose NaN coexists with rule-1 and rule-2
violations: only the generic message is returned. -/
theorem c6_nan_guard_witness :
    validate_numeric_rules [dJan1, dJan2] [none, some 10] [some 1, some 5]
        [some 1, some 99] =
      ["Found invalid numeric values (NaN) in from, to, or count columns"] :=
  (c6_nan_guard [dJan1, dJan2] [none, some 10] [some 1, some 5]
    [some 1, some 99]).2.1 (by with_unfolding_all decide)

/-! Claim C7: estimated completion years. -/

/-- C7: whenever `calculate_metrics` returns a record, its
`estimated_completion_years` is `(goal - current_standing) /
daily_throughput / 365.25` for positive throughput and `none` (absent, not
an error) for zero throughput. -/
theorem c7_estimated_completion (dates : List Date) (tos counts : List ℚ)
    (m : Metrics) (hm : calculate_metrics dates tos counts = some m) :
    (m.daily_throughput > 0 → m.estimated_completion_years =
      some ((1000000000 - m.current_standing) / m.daily_throughput /
        (36525 / 100))) ∧
    (m.daily_throughput = 0 → m.estimated_completion_years = none) := by
  rw [calculate_metrics] at hm
  cases h1 : listMax tos with
  | none => rw [h1] at hm; exact absurd hm (by simp)
  | some cs =>
  cases h2 : listMax counts with
  | none => rw [h1, h2] at hm; exact absurd hm (by simp)
  | some peak =>
  rw [h1, h2] at hm
  dsimp only at hm
  cases h3 : firstIdxOfMax counts with
  | none => rw [h3] at hm; exact absurd hm (by simp)
  | some idx =>
  rw [h3] at hm
  dsimp only at hm
  cases h4 : dates.get? idx with
  | none => rw [h4] at hm; exact absurd hm (by simp)
  | some pdate =>
  rw [h4] at hm
  dsimp only at hm
  have hm' := Option.some.inj hm
  subst hm'
  constructor
  · intro hpos
    show (if counts.sum / (counts.length : ℚ) > 0 then _ else none) = _
    rw [if_pos hpos]
  · intro hzero
    show (if counts.sum / (counts.length : ℚ) > 0 then _ else none) = none
    rw [if_neg]
    rw [show counts.sum / (counts.length : ℚ) = 0 from hzero]
    exact lt_irrefl 0

/-- The Metrics record at the zero-throughput input of Scenario 6. -/
def c7m : Metrics :=
  ⟨5, 1 / 2000000, 0, 0, dJan1, none⟩

/-- Witness for C7 at a zero-throughput input (Scenario 6): the estimate is
absent, and the calculator still returns a record rather than an error. -/
theorem c7_estimated_completion_witness :
    calculate_metrics [dJan1] [5] [0] = some c7m ∧
    c7m.estimated_completion_years = none := by
  have hm : calculate_metrics [dJan1] [5] [0] = some c7m := by
    norm_num [calculate_metrics, listMax, firstIdxOfMax, c7m]
  exact ⟨hm,
    (c7_estimated_completion [dJan1] [5] [0] c7m hm).2 (by norm_num [c7m])⟩

/-! Claim C1: what the pipeline hands back to the caller.  The source
`process_csv_file` has no `return` statement, so its value is always
`None`; `app.py` therefore never reaches its metrics/chart branch. -/

/-- C1: `process_csv_file` returns `None` on every input — including fully
valid datasets, for which it only renders the head-preview itself — so the
app shell never produces a Metrics record or either ChartSpec.  On the
spec's Scenario 1 dataset the pipeline reaches the success display yet
still returns `None`. -/
theorem c1_success_path_returns_nothing :
    (∀ df : DataFrame, (process_csv_file df).2 = none) ∧
    (∀ df : DataFrame, (app_main df).metrics = none ∧
      (app_main df).progressChart = none ∧ (app_main df).dailyChart = none ∧
      (app_main df).fullPreview = none) ∧
    process_csv_file scenario1 =
      (ProcessOutcome.displayed scenario1.head, none) := by
  have hnone : ∀ df : DataFrame, (process_csv_file df).2 = none := by
    intro df
    rw [process_csv_file]
    dsimp only
    split
    · rfl
    · split
      · rfl
      · split
        · rfl
        · split
          · rfl
          · split
            · rfl
            · split
              · rfl
              · rfl
  refine ⟨hnone, ?_, by with_unfolding_all decide⟩
  intro df
  have h := hnone df
  rcases hp : process_csv_file df with ⟨o, r⟩
  rw [hp] at h
  dsimp only at h
  subst h
  rw [app_main, hp]
  exact ⟨rfl, rfl, rfl, rfl⟩

/-! Claim C2: whether the four consistency checks accumulate. -/

/-- A dataset violating the duplicate check, the ordering check and the
count check all at once. -/
def c2df : DataFrame :=
  ⟨[("date", ⟨false, [dateCell dJan2, dateCell dJan1, dateCell dJan1]⟩),
    ("from", ⟨true, [numCell 1, numCell 1, numCell 1]⟩),
    ("to", ⟨true, [numCell 2, numCell 2, numCell 2]⟩),
    ("count", ⟨true, [numCell 5, numCell 5, numCell 5]⟩)]⟩

/-- C2, counterexample: `c2df` reaches the consistency checks and violates
duplicates, ordering AND count consistency at once, yet the pipeline stops
after surfacing only the duplicate-dates message: the ordering and count
messages are never surfaced, contradicting the claim that all four checks
are evaluated together. -/
theorem c2_counterexample :
    process_csv_file c2df =
      (.stopped ["Found duplicate dates: 2024-01-01"], none) ∧
    validate_date_ordering [dJan2, dJan1, dJan1] =
      ["Dates are not in chronological order (ascending)"] ∧
    countErrors [dJan2, dJan1, dJan1] [1, 1, 1] [2, 2, 2] [5, 5, 5] =
      ["Found rows where \x27count\x27 \u2260 \x27to - from + 1\x27: " ++
        "2024-01-02, 2024-01-01, 2024-01-01"] ∧
    "Dates are not in chronological order (ascending)" ∉
      ["Found duplicate dates: 2024-01-01"] := by
  with_unfolding_all decide

/-- C2, amended: the four consistency checks are NOT all evaluated before
the pipeline stops.  They run in three stages — duplicates, then ordering,
then the numeric rules — and each stage stops the pipeline by itself, so a
duplicate failure suppresses the ordering and numeric messages and an
ordering failure suppresses the numeric messages.  Only the two numeric
checks (range validity and count consistency) accumulate with each other,
behind the NaN guard. -/
theorem c2_consistency_stages_short_circuit (df : DataFrame)
    (mapping : List (String × String)) (dates : List Date)
    (hcols : validate_columns df.headers ["date", "from", "to", "count"] =
      (mapping, []))
    (htypes : validate_data_types df mapping = [])
    (hdates : parseDates (colOf df mapping "date").cells = some dates) :
    (validate_date_duplicates dates ≠ [] →
      process_csv_file df =
        (.stopped (validate_date_duplicates dates), none)) ∧
    (validate_date_duplicates dates = [] →
      validate_date_ordering dates ≠ [] →
      process_csv_file df =
        (.stopped (validate_date_ordering dates), none)) ∧
    (validate_date_duplicates dates = [] →
      validate_date_ordering dates = [] →
      validate_numeric_rules dates (coercedNums (colOf df mapping "from"))
          (coercedNums (colOf df mapping "to"))
          (coercedNums (colOf df mapping "count")) ≠ [] →
      process_csv_file df =
        (.stopped (validate_numeric_rules dates
          (coercedNums (colOf df mapping "from"))
          (coercedNums (colOf df mapping "to"))
          (coercedNums (colOf df mapping "count"))), none)) ∧
    (∀ (d : List Date) (f t c : List (Option ℚ)),
      hasNaN f t c = false →
      validate_numeric_rules d f t c =
        rangeErrors d (f.map (fun v => v.getD 0))
            (t.map (fun v => v.getD 0)) (c.map (fun v => v.getD 0)) ++
          countErrors d (f.map (fun v => v.getD 0))
            (t.map (fun v => v.getD 0)) (c.map (fun v => v.getD 0))) := by
  refine ⟨?_, ?_, ?_, ?_⟩
  · intro hdup
    simp only [process_csv_file, hcols, hdates, htypes]
    simp [hdup, List.isEmpty_iff]
  · intro hdup hord
    simp only [process_csv_file, hcols, hdates, htypes]
    simp [hdup, hord, List.isEmpty_iff]
  · intro hdup hord hnum
    simp only [process_csv_file, hcols, hdates, htypes]
    simp [hdup, hord, hnum, List.isEmpty_iff]
  · intro d f t c h
    rw [validate_numeric_rules]
    simp [h]

/-- Witness for C2's amended theorem at `c2df`: the duplicate stage stops
the pipeline with only its own message. -/
theorem c2_consistency_stages_short_circuit_witness :
    process_csv_file c2df =
      (.stopped (validate_date_duplicates [dJan2, dJan1, dJan1]), none) :=
  (c2_consistency_stages_short_circuit c2df
      [("date", "date"), ("from", "from"), ("to", "to"), ("count", "count")]
      [dJan2, dJan1, dJan1]
      (by with_unfolding_all decide) (by with_unfolding_all decide)
      (by with_unfolding_all decide)).1
    (by with_unfolding_all decide)

/-! Claim C4: content and order of the duplicate-dates message. -/

/-- Membership in the duplicated-occurrence subsequence: an element occurs
there iff it occurs twice in the list (or was already "seen"). -/
theorem mem_repeatsAux : ∀ (l seen : List Date) (d : Date),
    d ∈ repeatsAux seen l ↔ (d ∈ seen ∧ d ∈ l) ∨ List.Duplicate d l := by
  intro l
  induction l with
  | nil => intro seen d; simp [repeatsAux]
  | cons a t ih =>
    intro seen d
    rw [repeatsAux]
    by_cases ha : a ∈ seen
    · rw [if_pos ha]
      by_cases hda : d = a
      · subst hda
        simp [ha, List.duplicate_cons_iff, ih, List.mem_cons]
      · rw [List.mem_cons]
        simp only [hda, false_or]
        rw [ih, List.duplicate_cons_iff]
        have had : ¬(a = d) := fun h => hda h.symm
        simp [hda, had, List.mem_cons]
    · rw [if_neg ha, ih, List.duplicate_cons_iff]
      by_cases hda : d = a
      · subst hda
        simp [ha, List.mem_cons]
      · have had : ¬(a = d) := fun h => hda h.symm
        simp [hda, had, List.mem_cons]

/-- Membership in `uniqueFirstAux`. -/
theorem mem_uniqueFirstAux : ∀ (l seen : List Date) (x : Date),
    x ∈ uniqueFirstAux seen l ↔ x ∈ l ∧ x ∉ seen := by
  intro l
  induction l with
  | nil => intro seen x; simp [uniqueFirstAux]
  | cons a t ih =>
    intro seen x
    rw [uniqueFirstAux]
    by_cases ha : a ∈ seen
    · rw [if_pos ha, ih]
      by_cases hxa : x = a
      · subst hxa; simp [ha]
      · simp [hxa]
    · rw [if_neg ha]
      by_cases hxa : x = a
      · subst hxa; simp [ha, List.mem_cons.mpr (Or.inl rfl)]
      · rw [List.mem_cons]
        simp only [hxa, false_or]
        rw [ih]
        simp [hxa, List.mem_cons]

/-- The function `uniqueFirstAux` never repeats an element. -/
theorem nodup_uniqueFirstAux : ∀ (l seen : List Date),
    (uniqueFirstAux seen l).Nodup := by
  intro l
  induction l with
  | nil => intro seen; simp [uniqueFirstAux]
  | cons a t ih =>
    intro seen
    rw [uniqueFirstAux]
    by_cases ha : a ∈ seen
    · rw [if_pos ha]; exact ih seen
    · rw [if_neg ha]
      refine List.nodup_cons.mpr ⟨?_, ih (a :: seen)⟩
      intro hmem
      exact ((mem_uniqueFirstAux t (a :: seen) a).mp hmem).2
        (List.mem_cons_self a seen)

/-- The function `uniqueFirstAux` preserves the relative order of first occurrences. -/
theorem indexOf_le_uniqueFirstAux : ∀ (l seen : List Date) (a b : Date),
    a ∈ uniqueFirstAux seen l → b ∈ uniqueFirstAux seen l →
    ((uniqueFirstAux seen l).indexOf a ≤ (uniqueFirstAux seen l).indexOf b ↔
      l.indexOf a ≤ l.indexOf b) := by
  intro l
  induction l with
  | nil => intro seen a b ha _; rw [uniqueFirstAux] at ha; simp at ha
  | cons d t ih =>
    intro seen a b ha hb
    rw [uniqueFirstAux] at ha hb ⊢
    by_cases hd : d ∈ seen
    · rw [if_pos hd] at ha hb ⊢
      have hat := (mem_uniqueFirstAux t seen a).mp ha
      have hbt := (mem_uniqueFirstAux t seen b).mp hb
      have hda : d ≠ a := fun h => hat.2 (h ▸ hd)
      have hdb : d ≠ b := fun h => hbt.2 (h ▸ hd)
      rw [List.indexOf_cons_ne t hda, List.indexOf_cons_ne t hdb,
        Nat.succ_le_succ_iff]
      exact ih seen a b ha hb
    · rw [if_neg hd] at ha hb ⊢
      by_cases had : a = d
      · subst had
        rw [List.indexOf_cons_self, List.indexOf_cons_self]
        simp
      · by_cases hbd : b = d
        · subst hbd
          have hat := (mem_uniqueFirstAux t (b :: seen) a).mp
            ((List.mem_cons.mp ha).resolve_left had)
          have hba : b ≠ a := fun h => had h.symm
          rw [List.indexOf_cons_self, List.indexOf_cons_self,
            List.indexOf_cons_ne _ hba, List.indexOf_cons_ne t hba]
          simp
        · have ha' := (List.mem_cons.mp ha).resolve_left had
          have hb' := (List.mem_cons.mp hb).resolve_left hbd
          have hda : d ≠ a := fun h => had h.symm
          have hdb : d ≠ b := fun h => hbd h.symm
          rw [List.indexOf_cons_ne _ hda, List.indexOf_cons_ne _ hdb,
            List.indexOf_cons_ne t hda, List.indexOf_cons_ne t hdb,
            Nat.succ_le_succ_iff, Nat.succ_le_succ_iff]
          have hat := (mem_uniqueFirstAux t (d :: seen) a).mp ha'
          have hbt := (mem_uniqueFirstAux t (d :: seen) b).mp hb'
          exact ih (d :: seen) a b ha' hb'

/-- C4, counterexample: on the interleaved duplicates
`[2024-01-01, 2024-01-02, 2024-01-02, 2024-01-01]` the message lists
`2024-01-02` before `2024-01-01` (order of first REPEATED occurrence), not
in order of first occurrence as the claim states. -/
theorem c4_counterexample :
    validate_date_duplicates [dJan1, dJan2, dJan2, dJan1] =
      ["Found duplicate dates: 2024-01-02, 2024-01-01"] ∧
    "Found duplicate dates: 2024-01-02, 2024-01-01" ≠
      "Found duplicate dates: 2024-01-01, 2024-01-02" := by
  with_unfolding_all decide

/-- C4, amended: for every dataset with duplicate dates the check emits
exactly one message; the message lists each distinct duplicated date
exactly once, formatted `YYYY-MM-DD` and comma-joined; and the dates appear
in order of their first REPEATED occurrence (the order in which
`Series.duplicated` flags them), not in order of first occurrence. -/
theorem c4_duplicates_message (dates : List Date) (hdup : ¬dates.Nodup) :
    ∃ ds : List Date,
      validate_date_duplicates dates =
        ["Found duplicate dates: " ++ joinComma (ds.map Date.format)] ∧
      ds.Nodup ∧
      (∀ d, d ∈ ds ↔ List.Duplicate d dates) ∧
      (∀ a b, a ∈ ds → b ∈ ds →
        (ds.indexOf a ≤ ds.indexOf b ↔
          (repeatsAux [] dates).indexOf a ≤
            (repeatsAux [] dates).indexOf b)) := by
  obtain ⟨d0, hd0⟩ := List.exists_duplicate_iff_not_nodup.mpr hdup
  have hmem0 : d0 ∈ repeatsAux [] dates :=
    (mem_repeatsAux dates [] d0).mpr (Or.inr hd0)
  have hne : repeatsAux [] dates ≠ [] := by
    intro h; rw [h] at hmem0; simp at hmem0
  refine ⟨uniqueFirst (repeatsAux [] dates), ?_,
    nodup_uniqueFirstAux (repeatsAux [] dates) [], ?_, ?_⟩
  · rw [validate_date_duplicates]
    have hie : (repeatsAux [] dates).isEmpty = false := by
      rw [← Bool.not_eq_true, List.isEmpty_iff]
      exact hne
    simp [hie]
  · intro d
    rw [uniqueFirst, mem_uniqueFirstAux, mem_repeatsAux]
    simp
  · intro a b ha hb
    exact indexOf_le_uniqueFirstAux (repeatsAux [] dates) [] a b ha hb

/-- Witness for C4's amended theorem on the interleaved-duplicates input. -/
theorem c4_duplicates_message_witness :
    ∃ ds : List Date,
      validate_date_duplicates [dJan1, dJan2, dJan2, dJan1] =
        ["Found duplicate dates: " ++ joinComma (ds.map Date.format)] ∧
      ds.Nodup ∧
      (∀ d, d ∈ ds ↔ List.Duplicate d [dJan1, dJan2, dJan2, dJan1]) ∧
      (∀ a b, a ∈ ds → b ∈ ds →
        (ds.indexOf a ≤ ds.indexOf b ↔
          (repeatsAux [] [dJan1, dJan2, dJan2, dJan1]).indexOf a ≤
            (repeatsAux [] [dJan1, dJan2, dJan2, dJan1]).indexOf b)) :=
  c4_duplicates_message [dJan1, dJan2, dJan2, dJan1]
    (by with_unfolding_all decide)

/-! Claim C8: invariance of column resolution under case/whitespace. -/

/-- Setting a position to the element already there is the identity. -/
theorem set_get_self : ∀ (l : List String) (i : Nat) (h : i < l.length),
    l.set i (l.get ⟨i, h⟩) = l := by
  intro l
  induction l with
  | nil => intro i h; simp at h
  | cons a t ih =>
    intro i h
    cases i with
    | zero => rfl
    | succ j =>
      show a :: t.set j (t.get ⟨j, _⟩) = a :: t
      rw [ih j (Nat.lt_of_succ_lt_succ h)]

/-- Applying `find?` with a key predicate succeeds or fails identically on two
association lists with the same key column. -/
theorem find?_isSome_congr : ∀ (l₁ l₂ : List (String × String)),
    l₁.map Prod.fst = l₂.map Prod.fst → ∀ k : String,
    (l₁.find? (fun p => p.1 == k)).isSome =
      (l₂.find? (fun p => p.1 == k)).isSome := by
  intro l₁
  induction l₁ with
  | nil =>
    intro l₂ h k
    have h2 : l₂ = [] := List.map_eq_nil_iff.mp h.symm
    subst h2
    rfl
  | cons p t ih =>
    intro l₂ h k
    cases l₂ with
    | nil => simp at h
    | cons q t₂ =>
      simp only [List.map_cons, List.cons.injEq] at h
      obtain ⟨h1, h2⟩ := h
      by_cases hk : (p.1 == k) = true
      · rw [List.find?_cons_of_pos t hk,
          List.find?_cons_of_pos t₂ (by rw [← h1]; exact hk)]
        rfl
      · rw [List.find?_cons_of_neg t hk,
          List.find?_cons_of_neg t₂ (by rw [← h1]; exact hk)]
        exact ih t₂ h2 k

/-- The lookup `dictFind` succeeds or fails identically on two lookup tables with the
same key column. -/
theorem dictFind_isSome_congr (l₁ l₂ : List (String × String))
    (h : l₁.map Prod.fst = l₂.map Prod.fst) (k : String) :
    (dictFind l₁ k).isSome = (dictFind l₂ k).isSome := by
  rw [dictFind, dictFind]
  have hrev : l₁.reverse.map Prod.fst = l₂.reverse.map Prod.fst := by
    rw [List.map_reverse, List.map_reverse, h]
  have hs := find?_isSome_congr l₁.reverse l₂.reverse hrev k
  cases h1 : l₁.reverse.find? (fun p => p.1 == k) <;>
    cases h2 : l₂.reverse.find? (fun p => p.1 == k) <;>
      rw [h1, h2] at hs <;> simp_all

/-- The resolved logical names and the missing list depend only on which
keys `dictFind` resolves. -/
theorem validate_columns_aux_congr (lookup₁ lookup₂ : List (String × String))
    (h : ∀ k, (dictFind lookup₁ k).isSome = (dictFind lookup₂ k).isSome) :
    ∀ required : List String,
      (validate_columns_aux lookup₁ required).1.map Prod.fst =
        (validate_columns_aux lookup₂ required).1.map Prod.fst ∧
      (validate_columns_aux lookup₁ required).2 =
        (validate_columns_aux lookup₂ required).2 := by
  intro required
  induction required with
  | nil => exact ⟨rfl, rfl⟩
  | cons req rest ih =>
    have hk := h (lowerStr req)
    cases h1 : dictFind lookup₁ (lowerStr req) with
    | none =>
      cases h2 : dictFind lookup₂ (lowerStr req) with
      | none =>
        simp only [validate_columns_aux, h1, h2]
        exact ⟨ih.1, by rw [ih.2]⟩
      | some a₂ => rw [h1, h2] at hk; simp at hk
    | some a₁ =>
      cases h2 : dictFind lookup₂ (lowerStr req) with
      | none => rw [h1, h2] at hk; simp at hk
      | some a₂ =>
        simp only [validate_columns_aux, h1, h2]
        exact ⟨by simp [ih.1], ih.2⟩

/-- C8: replacing one header by any variant with the same
trim-then-lowercase normalization (in particular a re-cased or
re-whitespaced variant) leaves the list of resolved logical names and the
missing-column list unchanged. -/
theorem c8_resolution_invariant_under_normalization (headers : List String)
    (i : Nat) (h' : String) (required : List String)
    (hi : i < headers.length)
    (hnorm : norm h' = norm (headers.get ⟨i, hi⟩)) :
    (validate_columns (headers.set i h') required).1.map Prod.fst =
      (validate_columns headers required).1.map Prod.fst ∧
    (validate_columns (headers.set i h') required).2 =
      (validate_columns headers required).2 := by
  have hmap : (buildLookup (headers.set i h')).map Prod.fst =
      (buildLookup headers).map Prod.fst := by
    rw [buildLookup, buildLookup, List.map_map, List.map_map]
    show (headers.set i h').map (fun h => norm h) =
      headers.map (fun h => norm h)
    rw [List.map_set, hnorm]
    have hg : (headers.map (fun h => norm h)).get ⟨i, by simpa using hi⟩ =
        norm (headers.get ⟨i, hi⟩) := by
      simp [List.get_eq_getElem, List.getElem_map]
    rw [← hg, set_get_self]
  exact validate_columns_aux_congr (buildLookup (headers.set i h'))
    (buildLookup headers)
    (dictFind_isSome_congr (buildLookup (headers.set i h'))
      (buildLookup headers) hmap) required

/-- Witness for C8: header `" Date "` in place of `"date"` resolves the
same logical names (Scenario 4). -/
theorem c8_resolution_invariant_witness :
    (validate_columns (["date", "from", "to", "count"].set 0 " Date ")
        ["date", "from", "to", "count"]).1.map Prod.fst =
      (validate_columns ["date", "from", "to", "count"]
        ["date", "from", "to", "count"]).1.map Prod.fst ∧
    (validate_columns (["date", "from", "to", "count"].set 0 " Date ")
        ["date", "from", "to", "count"]).2 =
      (validate_columns ["date", "from", "to", "count"]
        ["date", "from", "to", "count"]).2 :=
  c8_resolution_invariant_under_normalization ["date", "from", "to", "count"]
    0 " Date " ["date", "from", "to", "count"] (by decide)
    (by with_unfolding_all decide)

/-! Claim C9: colliding normalized headers — the last one wins, silently. -/

/-- Finding with `find?` yields the head of the filtered list. -/
theorem find?_eq_head?_filter {α : Type} (p : α → Bool) :
    ∀ l : List α, l.find? p = (l.filter p).head? := by
  intro l
  induction l with
  | nil => rfl
  | cons a t ih =>
    by_cases hpa : p a = true
    · rw [List.find?_cons_of_pos t hpa, List.filter_cons_of_pos hpa]
      rfl
    · rw [List.find?_cons_of_neg t hpa,
        List.filter_cons_of_neg (by simpa using hpa)]
      exact ih

/-- The dictionary built from the headers resolves a key to the LAST
header whose normalization equals it. -/
theorem dictFind_eq_getLast_filter (headers : List String) (k : String) :
    dictFind (buildLookup headers) k =
      (headers.filter (fun h => norm h == k)).getLast? := by
  rw [dictFind, buildLookup, ← List.map_reverse, List.find?_map,
    Option.map_map]
  rw [show (Prod.snd ∘ fun h : String => (norm h, h)) = id from rfl,
    Option.map_id]
  rw [show ((fun p : String × String => p.1 == k) ∘
      fun h : String => (norm h, h)) = (fun h => norm h == k) from rfl]
  rw [find?_eq_head?_filter, List.filter_reverse, List.head?_reverse]
  rfl

/-- Every entry of the produced column mapping resolves through the
lookup table. -/
theorem mapping_mem_resolves (lookup : List (String × String)) :
    ∀ (required : List String) (req a : String),
      (req, a) ∈ (validate_columns_aux lookup required).1 →
      dictFind lookup (lowerStr req) = some a := by
  intro required
  induction required with
  | nil => intro req a h; simp [validate_columns_aux] at h
  | cons r rest ih =>
    intro req a h
    cases h1 : dictFind lookup (lowerStr r) with
    | some b =>
      simp only [validate_columns_aux, h1] at h
      rcases List.mem_cons.mp h with heq | hmem
      · rw [Prod.mk.injEq] at heq
        obtain ⟨h2, h3⟩ := heq
        subst h2; subst h3
        exact h1
      · exact ih req a hmem
    | none =>
      simp only [validate_columns_aux, h1] at h
      exact ih req a h

/-- A required name resolves in the final mapping exactly as the lookup
table resolves its lowercasing. -/
theorem aux_resolves (lookup : List (String × String)) :
    ∀ (required : List String) (req : String), req ∈ required →
      lookupMap (validate_columns_aux lookup required).1 req =
        dictFind lookup (lowerStr req) := by
  intro required
  induction required with
  | nil => intro req h; simp at h
  | cons r rest ih =>
    intro req hreq
    cases h1 : dictFind lookup (lowerStr r) with
    | some b =>
      simp only [validate_columns_aux, h1]
      by_cases hrr : r = req
      · subst hrr
        rw [lookupMap, List.find?_cons_of_pos _ (by simp)]
        exact h1.symm
      · rw [lookupMap, List.find?_cons_of_neg _ (by simpa using hrr)]
        rw [← lookupMap]
        exact ih req ((List.mem_cons.mp hreq).resolve_left
          (fun h => hrr h.symm))
    | none =>
      simp only [validate_columns_aux, h1]
      by_cases hrr : r = req
      · subst hrr
        rw [h1, lookupMap]
        cases hf : (validate_columns_aux lookup rest).1.find?
            (fun p => p.1 == r) with
        | none => rfl
        | some q =>
          have hqmem := List.mem_of_find?_eq_some hf
          have hq1 : q.1 = r := by
            have := List.find?_some hf
            simpa using this
          have := mapping_mem_resolves lookup rest q.1 q.2 (by
            rw [show (q.1, q.2) = q from rfl]
            exact hqmem)
          rw [hq1] at this
          rw [this] at h1
          cases h1
      · exact (ih req ((List.mem_cons.mp hreq).resolve_left
          (fun h => hrr h.symm)))

/-- A required name whose lowercasing some header normalizes to is never
reported missing. -/
theorem aux_not_missing (lookup : List (String × String)) :
    ∀ (required : List String) (req : String),
      (dictFind lookup (lowerStr req)).isSome = true →
      req ∉ (validate_columns_aux lookup required).2 := by
  intro required
  induction required with
  | nil => intro req _; simp [validate_columns_aux]
  | cons r rest ih =>
    intro req hsome
    cases h1 : dictFind lookup (lowerStr r) with
    | some b =>
      simp only [validate_columns_aux, h1]
      exact ih req hsome
    | none =>
      simp only [validate_columns_aux, h1]
      intro hmem
      rcases List.mem_cons.mp hmem with heq | hmem'
      · subst heq
        rw [h1] at hsome
        cases hsome
      · exact ih req hsome hmem'

/-- C9: when one or more headers normalize to a required name's
lowercasing, the Column Resolver silently maps the logical name to the
LAST such header in column order — the name is never reported missing and
earlier matching headers are ignored. -/
theorem c9_last_matching_header_wins (headers required : List String)
    (req : String) (hreq : req ∈ required)
    (hmatch : headers.filter (fun h => norm h == lowerStr req) ≠ []) :
    req ∉ (validate_columns headers required).2 ∧
    lookupMap (validate_columns headers required).1 req =
      (headers.filter (fun h => norm h == lowerStr req)).getLast? := by
  have hd := dictFind_eq_getLast_filter headers (lowerStr req)
  have hsome : (dictFind (buildLookup headers) (lowerStr req)).isSome =
      true := by
    rw [hd]
    exact List.getLast?_isSome.mpr hmatch
  exact ⟨aux_not_missing (buildLookup headers) required req hsome,
    by rw [validate_columns, aux_resolves (buildLookup headers) required
      req hreq, hd]⟩

/-- Witness for C9: headers `"Date"` and `" date "` both normalize to
`date`; the mapping resolves to the later `" date "` with no missing
report. -/
theorem c9_last_matching_header_wins_witness :
    ("date" ∉ (validate_columns ["Date", " date ", "from", "to", "count"]
        ["date", "from", "to", "count"]).2 ∧
      lookupMap (validate_columns ["Date", " date ", "from", "to", "count"]
          ["date", "from", "to", "count"]).1 "date" =
        (["Date", " date ", "from", "to", "count"].filter
          (fun h => norm h == lowerStr "date")).getLast?) ∧
    (["Date", " date ", "from", "to", "count"].filter
        (fun h => norm h == lowerStr "date")).getLast? = some " date " :=
  ⟨c9_last_matching_header_wins ["Date", " date ", "from", "to", "count"]
      ["date", "from", "to", "count"] "date" (by simp)
      (by with_unfolding_all decide),
    by with_unfolding_all decide⟩

/-! Claim C10: numeric-dtype columns skip per-value type inspection. -/

/-- C10: when the `from`, `to` and `count` columns already have numeric
dtype, the Schema Validator's output is exactly its date-column part —
whatever the cells hold (NaN included), no per-column numeric type error
can be produced.  A NaN in such a column is first caught later, by the
Consistency Validator's guard, whose single generic message names no
column. -/
theorem c10_numeric_dtype_skips_cells (df : DataFrame)
    (mapping : List (String × String))
    (hf : (colOf df mapping "from").numericDtype = true)
    (ht : (colOf df mapping "to").numericDtype = true)
    (hc : (colOf df mapping "count").numericDtype = true) :
    validate_data_types df mapping =
      (match parseDates (colOf df mapping "date").cells with
       | some _ => []
       | none => ["Date column \x27" ++ ((lookupMap mapping "date").getD "")
           ++ "\x27 contains invalid dates"]) ∧
    ∀ (dates : List Date) (toVals countVals : List (Option ℚ)),
      (coercedNums (colOf df mapping "from")).any Option.isNone = true →
      validate_numeric_rules dates (coercedNums (colOf df mapping "from"))
          toVals countVals =
        ["Found invalid numeric values (NaN) in from, to, or count columns"]
    := by
  constructor
  · rw [validate_data_types]
    simp only [hf, ht, hc, List.map_cons, List.map_nil, Bool.not_true,
      Bool.false_and, Bool.false_eq_true, if_false, List.flatten]
    simp
  · intro dates tv cv h
    have hn : hasNaN (coercedNums (colOf df mapping "from")) tv cv = true := by
      rw [hasNaN, h]
      rfl
    rw [validate_numeric_rules, if_pos hn]

/-- A dataframe whose numeric-dtype `from` column holds a NaN. -/
def c10df : DataFrame :=
  ⟨[("date", ⟨false, [dateCell dJan1]⟩),
    ("from", ⟨true, [nanCell]⟩),
    ("to", ⟨true, [numCell 1]⟩),
    ("count", ⟨true, [numCell 1]⟩)]⟩

/-- The identity column mapping for `c10df`. -/
def c10mapping : List (String × String) :=
  [("date", "date"), ("from", "from"), ("to", "to"), ("count", "count")]

/-- Witness for C10: the NaN-bearing numeric-dtype column passes the
Schema Validator with no error at all, and the NaN is then reported by
the Consistency Validator's generic guard message. -/
theorem c10_numeric_dtype_skips_cells_witness :
    validate_data_types c10df c10mapping = [] ∧
    validate_numeric_rules [dJan1]
        (coercedNums (colOf c10df c10mapping "from"))
        (coercedNums (colOf c10df c10mapping "to"))
        (coercedNums (colOf c10df c10mapping "count")) =
      ["Found invalid numeric values (NaN) in from, to, or count columns"]
    := by
  have h := c10_numeric_dtype_skips_cells c10df c10mapping
    (by with_unfolding_all decide) (by with_unfolding_all decide)
    (by with_unfolding_all decide)
  refine ⟨?_, h.2 [dJan1] (coercedNums (colOf c10df c10mapping "to"))
    (coercedNums (colOf c10df c10mapping "count"))
    (by with_unfolding_all decide)⟩
  rw [h.1]
  with_unfolding_all decide

end Counting
